import Mathlib

/-!
Verification development for the Mile High Potential zoning tool.

The repository is a browser mapping tool: a multi-policy configuration
panel (TOD / POD / BOD), renderers for transit, park and bus buffer
overlays, a map updater that displays classified parcels, and a
PostgreSQL schema holding the potential-unit formula.  The definitions
below are shallow embeddings, translated from the JavaScript sources
(config panel, tod-controller, the renderers, the map updater) and from
the SQL function calculate_potential_units.
-/

/-! ## A small JSON model

The request produced by ConfigPanel.getConfig is a JavaScript object
literal; we model JSON values with ordered key lists, matching the
construction order in the source. -/

inductive JVal where
  | bool (b : Bool)
  | num (n : Int)
  | str (s : String)
  | arr (l : List JVal)
  | obj (l : List (String × JVal))

/-! ## Panel state (multi-policy ConfigPanel)

State of the DOM widgets the multi-policy ConfigPanel reads: the three
policy checkboxes, the TOD / POD sliders, the BOD sub-toggles and
sliders.  The BRT and Bus elements are looked up with null checks in the
source, so they are modelled as Option; likewise the exclude-unlikely
checkbox.  Slider values are read with parseInt, so they are integers
here. -/

structure PanelState where
  todChecked : Bool
  podChecked : Bool
  bodChecked : Bool
  brtToggle : Option Bool
  busToggle : Option Bool
  todRing1Dist : Int
  todRing1Height : Int
  todRing2Dist : Int
  todRing2Height : Int
  todRing3Dist : Int
  todRing3Height : Int
  podRegInnerDist : Int
  podRegInnerHeight : Int
  podRegOuterDist : Int
  podRegOuterHeight : Int
  podCommunityDist : Int
  podCommunityHeight : Int
  brtSliders : Option (Int × Int × Int × Int)
  busSliders : Option (Int × Int)
  excludeUnlikely : Option Bool
deriving DecidableEq

/-- Ring object literal as built inside getConfig. -/
def ringJson (d h : Int) (zone density : String) : JVal :=
  JVal.obj [("distance", JVal.num d), ("height", JVal.num h),
            ("zone", JVal.str zone), ("density", JVal.str density)]

/-- Translation of ConfigPanel.getConfig from the multi-policy panel:
builds the request object with exclude_unlikely, tod, pod and bod
sections.  Disabled sections carry only the enabled flag; the BOD
section carries brt_enabled, brt_rings, bus_enabled, bus_rings, with the
ring arrays filled only when the sub-toggle is on and the sliders
exist. -/
def getConfig (s : PanelState) : JVal :=
  let tod :=
    if s.todChecked then
      JVal.obj [("enabled", JVal.bool true),
        ("rings", JVal.arr
          [ringJson s.todRing1Dist s.todRing1Height
             ("MX-" ++ toString s.todRing1Height) "high",
           ringJson s.todRing2Dist s.todRing2Height
             ("RX-" ++ toString s.todRing2Height ++ "x") "med",
           ringJson s.todRing3Dist s.todRing3Height
             ("MU-" ++ toString s.todRing3Height ++ "x") "low"])]
    else JVal.obj [("enabled", JVal.bool false)]
  let pod :=
    if s.podChecked then
      JVal.obj [("enabled", JVal.bool true),
        ("regional_parks", JVal.arr
          [ringJson s.podRegInnerDist s.podRegInnerHeight
             ("RX-" ++ toString s.podRegInnerHeight ++ "x") "med",
           ringJson s.podRegOuterDist s.podRegOuterHeight
             ("MU-" ++ toString s.podRegOuterHeight ++ "x") "low"]),
        ("community_parks", JVal.arr
          [ringJson s.podCommunityDist s.podCommunityHeight
             ("MU-" ++ toString s.podCommunityHeight ++ "x") "low"])]
    else JVal.obj [("enabled", JVal.bool false)]
  let bod :=
    if s.bodChecked then
      let brtEnabled := s.brtToggle.getD false
      let busEnabled := s.busToggle.getD true
      let brtRings : List JVal :=
        if brtEnabled then
          match s.brtSliders with
          | some (d1, h1, d2, h2) =>
              [ringJson d1 h1 ("RX-" ++ toString h1) "med",
               ringJson d2 h2 ("MX-" ++ toString h2) "low"]
          | none => []
        else []
      let busRings : List JVal :=
        if busEnabled then
          match s.busSliders with
          | some (d, h) => [ringJson d h ("MX-" ++ toString h) "low"]
          | none => []
        else []
      JVal.obj [("enabled", JVal.bool true),
                ("brt_enabled", JVal.bool brtEnabled),
                ("brt_rings", JVal.arr brtRings),
                ("bus_enabled", JVal.bool busEnabled),
                ("bus_rings", JVal.arr busRings)]
    else JVal.obj [("enabled", JVal.bool false)]
  JVal.obj [("exclude_unlikely", JVal.bool (s.excludeUnlikely.getD true)),
            ("tod", tod), ("pod", pod), ("bod", bod)]

/-- Translation of ConfigPanel.reset (ballot measure preset): all three
policies checked, TOD rings 500/8, 1000/5, 1500/3, POD regional 250/5
and 750/3, community 250/3, BRT toggle off, Bus toggle on, BRT sliders
250/5 and 750/3, Bus sliders 250/3, exclude-unlikely checked.  Elements
that do not exist are left untouched, matching the null checks in the
source. -/
def resetPanel (s : PanelState) : PanelState :=
  { s with
    todChecked := true, podChecked := true, bodChecked := true,
    todRing1Dist := 500, todRing1Height := 8,
    todRing2Dist := 1000, todRing2Height := 5,
    todRing3Dist := 1500, todRing3Height := 3,
    podRegInnerDist := 250, podRegInnerHeight := 5,
    podRegOuterDist := 750, podRegOuterHeight := 3,
    podCommunityDist := 250, podCommunityHeight := 3,
    brtToggle := s.brtToggle.map (fun _ => false),
    busToggle := s.busToggle.map (fun _ => true),
    brtSliders := s.brtSliders.map (fun _ => (250, 5, 750, 3)),
    busSliders := s.busSliders.map (fun _ => (250, 3)),
    excludeUnlikely := s.excludeUnlikely.map (fun _ => true) }

/-- The documented ballot-measure default request, written out in full. -/
def ballotDefaultJson : JVal :=
  JVal.obj [("exclude_unlikely", JVal.bool true),
    ("tod", JVal.obj [("enabled", JVal.bool true),
      ("rings", JVal.arr
        [ringJson 500 8 "MX-8" "high",
         ringJson 1000 5 "RX-5x" "med",
         ringJson 1500 3 "MU-3x" "low"])]),
    ("pod", JVal.obj [("enabled", JVal.bool true),
      ("regional_parks", JVal.arr
        [ringJson 250 5 "RX-5x" "med",
         ringJson 750 3 "MU-3x" "low"]),
      ("community_parks", JVal.arr [ringJson 250 3 "MU-3x" "low"])]),
    ("bod", JVal.obj [("enabled", JVal.bool true),
      ("brt_enabled", JVal.bool false),
      ("brt_rings", JVal.arr []),
      ("bus_enabled", JVal.bool true),
      ("bus_rings", JVal.arr [ringJson 250 3 "MX-3" "low"])])]

/-! ## Request-shape checkers (from the documented interface)

These follow the documented request shape, to be compared with what
getConfig builds. -/

/-- A ring object carries distance, height, zone and density. -/
def ringWellFormed : JVal → Bool
  | JVal.obj [("distance", JVal.num _), ("height", JVal.num _),
              ("zone", JVal.str _), ("density", JVal.str _)] => true
  | _ => false

/-- Shape of the tod section: enabled flag, rings when enabled. -/
def todWellFormed : JVal → Bool
  | JVal.obj [("enabled", JVal.bool true), ("rings", JVal.arr rs)] =>
      rs.all ringWellFormed
  | JVal.obj [("enabled", JVal.bool false)] => true
  | _ => false

/-- Shape of the pod section: enabled flag, regional and community ring
lists when enabled. -/
def podWellFormed : JVal → Bool
  | JVal.obj [("enabled", JVal.bool true),
              ("regional_parks", JVal.arr rp),
              ("community_parks", JVal.arr cp)] =>
      rp.all ringWellFormed && cp.all ringWellFormed
  | JVal.obj [("enabled", JVal.bool false)] => true
  | _ => false

/-- Shape of the bod section: enabled flag and, when enabled, the
brt_enabled, brt_rings, bus_enabled and bus_rings fields. -/
def bodWellFormed : JVal → Bool
  | JVal.obj [("enabled", JVal.bool true), ("brt_enabled", JVal.bool _),
              ("brt_rings", JVal.arr _), ("bus_enabled", JVal.bool _),
              ("bus_rings", JVal.arr _)] => true
  | JVal.obj [("enabled", JVal.bool false)] => true
  | _ => false

/-- Shape of the whole request. -/
def configWellFormed : JVal → Bool
  | JVal.obj [("exclude_unlikely", JVal.bool _), ("tod", t),
              ("pod", p), ("bod", b)] =>
      todWellFormed t && podWellFormed p && bodWellFormed b
  | _ => false

/-- The bod section of the request names exactly the fields enabled,
brt_enabled, brt_rings, bus_enabled, bus_rings. -/
def bodHasSubFields : JVal → Bool
  | JVal.obj [_, _, _, ("bod", JVal.obj fields)] =>
      fields.map Prod.fst ==
        ["enabled", "brt_enabled", "brt_rings", "bus_enabled", "bus_rings"]
  | _ => false

/-- A fully populated concrete panel state used for witnesses. -/
def panelStateA : PanelState :=
  { todChecked := true, podChecked := true, bodChecked := true,
    brtToggle := some true, busToggle := some true,
    todRing1Dist := 600, todRing1Height := 9,
    todRing2Dist := 1100, todRing2Height := 6,
    todRing3Dist := 1600, todRing3Height := 4,
    podRegInnerDist := 300, podRegInnerHeight := 6,
    podRegOuterDist := 800, podRegOuterHeight := 4,
    podCommunityDist := 300, podCommunityHeight := 4,
    brtSliders := some (260, 6, 760, 4),
    busSliders := some (260, 4),
    excludeUnlikely := some false }

/-- C7: for every state of the policy toggles and sliders, getConfig
produces a request of the documented shape, and when BOD is enabled the
bod object carries the fields brt_enabled, brt_rings, bus_enabled and
bus_rings. -/
theorem getConfig_request_shape (s : PanelState) :
    configWellFormed (getConfig s) = true ∧
    (s.bodChecked = true → bodHasSubFields (getConfig s) = true) := by
  obtain ⟨tc, pc, bc, brtT, busT, a1, a2, a3, a4, a5, a6,
    b1, b2, b3, b4, b5, b6, brtS, busS, ex⟩ := s
  cases tc <;> cases pc <;> cases bc <;>
    exact ⟨rfl, fun h => by cases h <;> rfl⟩

/-- C7 witness: concrete panel state with BOD enabled. -/
theorem getConfig_request_shape_witness :
    configWellFormed (getConfig panelStateA) = true ∧
    bodHasSubFields (getConfig panelStateA) = true :=
  ⟨(getConfig_request_shape panelStateA).1,
   (getConfig_request_shape panelStateA).2 rfl⟩

/-- C8: reset restores exactly the documented ballot-measure default
configuration: TOD rings 500/8, 1000/5, 1500/3, POD regional 250/5 and
750/3, community 250/3, a BOD bus ring 250/3 and BRT disabled.  The one
hypothesis is that the bus sliders exist in the page, since reset and
getConfig both guard on their presence. -/
theorem reset_restores_ballot_defaults (s : PanelState) (dh : Int × Int)
    (hbus : s.busSliders = some dh) :
    getConfig (resetPanel s) = ballotDefaultJson := by
  obtain ⟨tc, pc, bc, brtT, busT, a1, a2, a3, a4, a5, a6,
    b1, b2, b3, b4, b5, b6, brtS, busS, ex⟩ := s
  cases brtT <;> cases busT <;> cases brtS <;> cases busS <;> cases ex <;>
    first
      | exact Option.noConfusion hbus
      | rfl

/-- C8 witness: resetting the concrete panel state yields the ballot
default request. -/
theorem reset_restores_ballot_defaults_witness :
    getConfig (resetPanel panelStateA) = ballotDefaultJson :=
  reset_restores_ballot_defaults panelStateA (260, 4) rfl

/-! ## Potential units (SQL function calculate_potential_units)

Translation of the PL/pgSQL helper: land_area_acres is NUMERIC
(modelled as a rational), stories is INTEGER, and the result is
ROUND(land_area_acres * units_per_acre), where the NUMERIC ROUND of
PostgreSQL rounds halves away from zero. -/

/-- PostgreSQL ROUND on NUMERIC: round half away from zero. -/
def pgRound (x : Rat) : Int :=
  if 0 ≤ x then Int.floor (x + 1 / 2) else Int.ceil (x - 1 / 2)

/-- The stories-to-units-per-acre CASE expression.  The stories argument
is an integer but the second guard compares against the numeric literal
2.5, kept here as a rational comparison. -/
def unitsPerAcre (stories : Int) : Int :=
  if stories ≤ 2 then 30
  else if (stories : Rat) ≤ 5 / 2 then 35
  else if stories ≤ 3 then 60
  else if stories ≤ 5 then 100
  else if stories ≤ 7 then 160
  else if stories ≤ 10 then 160
  else if stories ≤ 12 then 220
  else if stories ≤ 16 then 280
  else if stories ≤ 20 then 350
  else 450

/-- Translation of calculate_potential_units. -/
def calculate_potential_units (land_area_acres : Rat) (stories : Int) : Int :=
  let units_per_acre := unitsPerAcre stories
  pgRound (land_area_acres * (units_per_acre : Rat))

/-- The 2.5 guard is unreachable for an integer stories argument, so the
CASE reduces to a pure integer step table. -/
theorem unitsPerAcre_eq_int (s : Int) :
    unitsPerAcre s =
      (if s ≤ 2 then 30 else if s ≤ 3 then 60 else if s ≤ 5 then 100
       else if s ≤ 7 then 160 else if s ≤ 10 then 160 else if s ≤ 12 then 220
       else if s ≤ 16 then 280 else if s ≤ 20 then 350 else 450) := by
  unfold unitsPerAcre
  by_cases h1 : s ≤ 2
  · simp [h1]
  · have h2 : ¬ ((s : Rat) ≤ 5 / 2) := by
      intro hle
      have h3 : (3 : Int) ≤ s := by omega
      have h4 : (3 : Rat) ≤ (s : Rat) := by exact_mod_cast h3
      linarith
    simp [h1, h2]

/-- C5: the potential-unit estimate equals round(acres times
unitsPerAcre(stories)), and unitsPerAcre is a fixed lookup table over
story count: the constant 30 at and below 2 stories, fixed band values
at 3, 5, 7, 12, 16 and 20 stories, and the single cap 450 above the
tallest band. -/
theorem calculate_potential_units_formula (a : Rat) (s : Int) :
    calculate_potential_units a s = pgRound (a * (unitsPerAcre s : Rat)) ∧
    unitsPerAcre (min s 2) = 30 ∧
    unitsPerAcre (max s 21) = 450 ∧
    unitsPerAcre 3 = 60 ∧ unitsPerAcre 5 = 100 ∧ unitsPerAcre 7 = 160 ∧
    unitsPerAcre 12 = 220 ∧ unitsPerAcre 16 = 280 ∧ unitsPerAcre 20 = 350 := by
  refine ⟨rfl, ?_, ?_, ?_, ?_, ?_, ?_, ?_, ?_⟩ <;>
    rw [unitsPerAcre_eq_int]
  · have h : min s 2 ≤ 2 := min_le_right _ _
    simp [h]
  · have h : 21 ≤ max s 21 := le_max_right _ _
    split_ifs <;> omega
  all_goals norm_num

set_option maxHeartbeats 1600000 in
/-- C6: unitsPerAcre is a non-decreasing step function of story count,
and equal story counts always produce equal outputs. -/
theorem unitsPerAcre_monotone_deterministic (s1 s2 : Int) (h : s1 ≤ s2) :
    unitsPerAcre s1 ≤ unitsPerAcre s2 ∧
    (s1 = s2 → unitsPerAcre s1 = unitsPerAcre s2) := by
  constructor
  · rw [unitsPerAcre_eq_int, unitsPerAcre_eq_int]
    split_ifs <;> omega
  · intro he
    rw [he]

/-- C6 witness: one story versus five stories. -/
theorem unitsPerAcre_monotone_witness :
    (1 : Int) ≤ 5 ∧ unitsPerAcre 1 ≤ unitsPerAcre 5 :=
  ⟨by norm_num, (unitsPerAcre_monotone_deterministic 1 5 (by norm_num)).1⟩

/-! ## TODController buffer update (tod-controller.js)

In TODController.evaluate, before the API call, the transit buffer is
redrawn only when the configuration has a rings list with at least three
entries, and the radius passed is the distance of rings[2]. -/

/-- A ring as held in the TOD controller configuration. -/
structure PolicyRing where
  distance : Int
  height : Int
  zone : String
  density : String
deriving DecidableEq, Inhabited

/-- The buffer distance TODController.evaluate passes to
updateBufferRings: rings[2].distance when the renderer is present and
the config carries at least three rings, otherwise no update happens. -/
def updateBufferDistance (hasRenderer : Bool) (rings : Option (List PolicyRing)) :
    Option Int :=
  if hasRenderer then
    match rings with
    | none => none
    | some rs =>
        if 3 ≤ rs.length then some ((rs.getD 2 default).distance) else none
  else none

/-- C10: with at least three rings the station buffer radius is the
third ring entry, rings[2]; with fewer than three rings, or no rings
field, the buffer is not updated at all. -/
theorem evaluate_buffer_uses_third_ring (rs : List PolicyRing) :
    (3 ≤ rs.length →
      updateBufferDistance true (some rs) = some ((rs.getD 2 default).distance)) ∧
    (rs.length < 3 → updateBufferDistance true (some rs) = none) ∧
    updateBufferDistance true none = none := by
  refine ⟨fun h => ?_, fun h => ?_, rfl⟩
  · simp [updateBufferDistance, h]
  · simp [updateBufferDistance, Nat.not_le.mpr h]

/-- Rings in descending-then-ascending order: the third entry has
distance 700 while the maximum of the three distances is 1500. -/
def ringsOutOfOrder : List PolicyRing :=
  [{ distance := 500, height := 8, zone := "MX-8", density := "high" },
   { distance := 1500, height := 5, zone := "RX-5x", density := "med" },
   { distance := 700, height := 3, zone := "MU-3x", density := "low" }]

/-- C10 witness: with the unordered ring list the buffer radius is the
third entry 700, not the maximum distance 1500. -/
theorem evaluate_buffer_uses_third_ring_witness :
    updateBufferDistance true (some ringsOutOfOrder) = some 700 ∧
    (700 : Int) < 1500 := by
  have h := (evaluate_buffer_uses_third_ring ringsOutOfOrder).1 (by decide)
  exact ⟨h.trans (by decide), by decide⟩

/-! ## Renderer states and buffer loading

State of each renderer, with the methods the configuration panel calls.
The geometric buffer computation (turf.buffer / turf.union / canvas
drawing) is external; each loading function takes its outcome as an
explicit Except argument.  TransitRenderer.loadBufferRings and
ParkRenderer.updateBuffers wrap their bodies in try/catch, so they are
total and return a plain state; the canvas BusRenderer.loadBufferRings
has no handler, so its model returns the propagated error alongside the
state reached so far. -/

structure TransitState where
  hasLines : Bool
  hasStationsLayer : Bool
  linesOn : Bool
  stationsOn : Bool
  stationsCount : Nat
  buffer : Option Int
deriving DecidableEq

def transitShowLines (t : TransitState) : TransitState :=
  if t.hasLines && !t.linesOn then { t with linesOn := true } else t

def transitHideLines (t : TransitState) : TransitState :=
  if t.hasLines then { t with linesOn := false } else t

def transitShowStations (t : TransitState) : TransitState :=
  if t.hasStationsLayer && !t.stationsOn then { t with stationsOn := true } else t

def transitHideStations (t : TransitState) : TransitState :=
  if t.hasStationsLayer then { t with stationsOn := false } else t

def transitClearBuffers (t : TransitState) : TransitState :=
  if t.buffer.isSome then { t with buffer := none } else t

/-- TransitRenderer.loadBufferRings: clear, then buffer and union all
stations; the whole body is inside try/catch, so a failing computation
is logged and leaves the overlay omitted. -/
def transitLoadBufferRings (t : TransitState) (d : Int)
    (compute : Except String Unit) : TransitState :=
  let t1 := transitClearBuffers t
  match compute with
  | Except.ok _ => { t1 with buffer := some d }
  | Except.error _ => t1

/-- TransitRenderer.updateBufferRings: reload only when stations are
stored. -/
def transitUpdateBufferRings (t : TransitState) (d : Int)
    (compute : Except String Unit) : TransitState :=
  if 0 < t.stationsCount then transitLoadBufferRings t d compute else t

structure ParkState where
  featuresCount : Nat
  buffer : Option (Int × Int)
deriving DecidableEq

/-- ParkRenderer.updateBuffers: remove the old ring layer, return early
with no features, else buffer every park and combine; the body is inside
try/catch, so a failing computation leaves the overlay omitted. -/
def parkUpdateBuffers (p : ParkState) (regionalDist communityDist : Int)
    (compute : Except String Unit) : ParkState :=
  let p1 := if p.buffer.isSome then { p with buffer := none } else p
  if p1.featuresCount = 0 then p1
  else
    match compute with
    | Except.ok _ => { p1 with buffer := some (regionalDist, communityDist) }
    | Except.error _ => p1

/-- The methods the ParkRenderer class actually defines. -/
def parkRendererMethods : List String := ["loadParks", "updateBuffers"]

def parkRendererHas (m : String) : Bool := parkRendererMethods.contains m

structure BusState where
  stopsCount : Nat
  hasStopsLayer : Bool
  stopsOn : Bool
  buffer : Option Int
  currentFeet : Int
deriving DecidableEq

def busShowStops (b : BusState) : BusState :=
  if b.hasStopsLayer && !b.stopsOn then { b with stopsOn := true } else b

def busHideStops (b : BusState) : BusState :=
  if b.hasStopsLayer then { b with stopsOn := false } else b

def busClearBuffers (b : BusState) : BusState :=
  if b.buffer.isSome then { b with buffer := none } else b

/-- The canvas BusRenderer.loadBufferRings: clear, return early with no
stops, record the distance, then build the canvas layer and draw.  There
is no try/catch, so a throwing computation propagates to the caller; the
second component is the escaping error. -/
def busLoadBufferRings (b : BusState) (d : Int)
    (compute : Except String Unit) : BusState × Option String :=
  let b1 := busClearBuffers b
  if b1.stopsCount = 0 then (b1, none)
  else
    let b2 := { b1 with currentFeet := d }
    match compute with
    | Except.ok _ => ({ b2 with buffer := some d }, none)
    | Except.error e => (b2, some e)

/-- The canvas BusRenderer.updateBufferRings: when a canvas layer is
registered only its distance changes and it redraws, otherwise the rings
are loaded from the stored stops; redrawing is also unprotected. -/
def busUpdateBufferRings (b : BusState) (d : Int)
    (compute : Except String Unit) : BusState × Option String :=
  let b1 := { b with currentFeet := d }
  if b1.buffer.isSome then
    match compute with
    | Except.ok _ => ({ b1 with buffer := some d }, none)
    | Except.error e => (b1, some e)
  else if 0 < b1.stopsCount then busLoadBufferRings b1 d compute
  else (b1, none)

/-! ## Controller state and the multi-policy apply

AppState gathers what the multi-policy ConfigPanel.apply touches: the
three renderer instances (window globals that may be absent), the
displayed parcel layer, the panel and title totals, the alert flag and
the loading overlay.  EvalResults models the evaluate-policies response:
the GeoJSON payload (by identity) and the summary totals. -/

structure EvalResults where
  geojsonId : Nat
  totalParcels : Int
  totalUnits : Int
deriving DecidableEq

structure AppState where
  transit : Option TransitState
  park : Option ParkState
  bus : Option BusState
  parcels : Option Nat
  panelTotals : Option (Int × Int)
  alertShown : Bool
  loading : Bool
deriving DecidableEq

/-- The code that runs when an evaluate-policies response resolves: the
panel stats, title stats and map parcels are overwritten from the
response, and the finally branch hides the loading overlay.  There is no
request identity check before applying the response. -/
def applyResolveHandler (st : AppState) (r : EvalResults) : AppState :=
  { st with panelTotals := some (r.totalParcels, r.totalUnits),
            parcels := some r.geojsonId,
            loading := false }

/-- The transit block of apply: with TOD checked, show lines and
stations and redraw the buffers at the ring-3 slider distance; with TOD
unchecked, hide both and clear the buffers. -/
def applyTransitBlock (panel : PanelState) (st : AppState)
    (tCompute : Except String Unit) : AppState :=
  match st.transit with
  | none => st
  | some t =>
    if panel.todChecked then
      { st with transit := some (transitUpdateBufferRings
          (transitShowStations (transitShowLines t)) panel.todRing3Dist tCompute) }
    else
      { st with transit := some (transitClearBuffers
          (transitHideStations (transitHideLines t))) }

/-- The bus block of apply: with BOD checked, show the stops and update
the buffer rings at the bus-distance slider value; reading a missing
slider element throws, and an uncaught buffer error escapes.  With BOD
unchecked, hide the stops and clear the buffers. -/
def applyBusBlock (panel : PanelState) (st : AppState)
    (bCompute : Except String Unit) : AppState × Option String :=
  match st.bus with
  | none => (st, none)
  | some b =>
    if panel.bodChecked then
      match panel.busSliders with
      | none => (st, some "TypeError: cannot read value of null")
      | some (d, _) =>
        let b1 := busShowStops b
        match busUpdateBufferRings b1 d bCompute with
        | (b2, none) => ({ st with bus := some b2 }, none)
        | (b2, some e) => ({ st with bus := some b2 }, some e)
    else ({ st with bus := some (busClearBuffers (busHideStops b)) }, none)

/-- The guarded section of apply: getConfig, the API call, and the
response handling; a non-success outcome is caught, an alert is raised,
and the finally branch hides the loading overlay. -/
def applyApiBlock (st : AppState) (apiOutcome : Except String EvalResults) :
    AppState × Option String :=
  match apiOutcome with
  | Except.ok r => (applyResolveHandler st r, none)
  | Except.error _ => ({ st with alertShown := true, loading := false }, none)

/-- The park block of apply and everything after it.  The park block
calls showParks when POD is checked and hideParks plus clearBuffers
otherwise, but the ParkRenderer class defines neither method, so with a
park renderer present either branch throws before reaching
updateBuffers, the bus block or the API call. -/
def applyAfterTransit (panel : PanelState) (st1 : AppState)
    (bCompute : Except String Unit)
    (apiOutcome : Except String EvalResults) : AppState × Option String :=
  match st1.park with
  | some _ =>
    if panel.podChecked then
      (st1, some "TypeError: window.parkRenderer.showParks is not a function")
    else
      (st1, some "TypeError: window.parkRenderer.hideParks is not a function")
  | none =>
    match applyBusBlock panel st1 bCompute with
    | (st2, some e) => (st2, some e)
    | (st2, none) => applyApiBlock st2 apiOutcome

/-- Translation of the multi-policy ConfigPanel.apply.  The returned
option is an exception escaping apply: the renderer blocks run before
the try, so a throw there aborts the call with the state reached so far
and the loading overlay still up. -/
def applyModel (panel : PanelState) (st : AppState)
    (tCompute bCompute : Except String Unit)
    (apiOutcome : Except String EvalResults) : AppState × Option String :=
  applyAfterTransit panel
    (applyTransitBlock panel { st with loading := true } tCompute)
    bCompute apiOutcome

/-! ## Map updater layer replacement (MapUpdater.updateWithResults)

The map is modelled by the identities of the layers registered on it and
the parcelLayer field of the updater.  updateWithResults first removes
the old parcel layer, then, when the results are a feature collection,
builds the new layer and adds it.  The trace lists the map states after
each mutating step. -/

structure MU where
  parcelLayer : Option Nat
  onMap : List Nat
deriving DecidableEq

def muDummy : MU := { parcelLayer := none, onMap := [] }

/-- The initial clear: remove the existing parcel layer from the map. -/
def muRemoveOld (m : MU) : MU :=
  match m.parcelLayer with
  | some l => { m with onMap := m.onMap.erase l }
  | none => m

/-- Adding the freshly built layer when the results are a valid feature
collection; otherwise only a warning is logged. -/
def muAddNew (m : MU) (valid : Bool) (newId : Nat) : MU :=
  if valid then { parcelLayer := some newId, onMap := m.onMap ++ [newId] }
  else m

/-- The sequence of map states produced by updateWithResults: before the
call, after the old layer is removed, and after the new layer is
added. -/
def updateWithResultsTrace (m : MU) (valid : Bool) (newId : Nat) : List MU :=
  let m1 := muRemoveOld m
  let m2 := muAddNew m1 valid newId
  [m, m1, m2]

/-! ## Concrete states used by the claim instances -/

def resultA : EvalResults :=
  { geojsonId := 0, totalParcels := 120, totalUnits := 3400 }

def resultB : EvalResults :=
  { geojsonId := 1, totalParcels := 45, totalUnits := 900 }

def appState0 : AppState :=
  { transit := none, park := none, bus := none, parcels := none,
    panelTotals := none, alertShown := false, loading := true }

def transitStateC3 : TransitState :=
  { hasLines := true, hasStationsLayer := true, linesOn := true,
    stationsOn := true, stationsCount := 5, buffer := some 1500 }

def stC3 : AppState :=
  { transit := some transitStateC3, park := none, bus := none,
    parcels := some 7, panelTotals := some (10, 100),
    alertShown := false, loading := false }

def parkStateC4 : ParkState := { featuresCount := 4, buffer := some (750, 250) }

def busStateC4 : BusState :=
  { stopsCount := 9, hasStopsLayer := true, stopsOn := true,
    buffer := some 250, currentFeet := 250 }

def stC4 : AppState :=
  { transit := some transitStateC3, park := some parkStateC4,
    bus := some busStateC4, parcels := some 7,
    panelTotals := some (10, 100), alertShown := false, loading := false }

def panelC4 : PanelState := { panelStateA with podChecked := false }

def busStateB0 : BusState :=
  { stopsCount := 3, hasStopsLayer := true, stopsOn := true,
    buffer := none, currentFeet := 250 }

def mu0 : MU := { parcelLayer := some 1, onMap := [1] }

/-! ## Claim theorems for the apply pipeline -/

/-- C1: apply has no supersede mechanism.  The response handler applies
whatever response resolves, with no request identity check, so when an
in-flight evaluation for config A is followed by apply of config B whose
response resolves first, the late arrival of the A response overwrites
the displayed B result: the display reverts to the earlier
configuration, which the specification forbids. -/
theorem stale_result_overwrites_display :
    (applyResolveHandler (applyResolveHandler appState0 resultB)
        resultA).parcels = some resultA.geojsonId ∧
    (applyResolveHandler (applyResolveHandler appState0 resultB)
        resultA).parcels ≠ some resultB.geojsonId ∧
    (applyResolveHandler (applyResolveHandler appState0 resultB)
        resultA).panelTotals ≠
      some (resultB.totalParcels, resultB.totalUnits) := by decide

/-- Fields of the controller state that the transit block never
touches. -/
theorem applyTransitBlock_projections (panel : PanelState) (st : AppState)
    (tc : Except String Unit) :
    (applyTransitBlock panel st tc).park = st.park ∧
    (applyTransitBlock panel st tc).bus = st.bus ∧
    (applyTransitBlock panel st tc).parcels = st.parcels ∧
    (applyTransitBlock panel st tc).panelTotals = st.panelTotals ∧
    (applyTransitBlock panel st tc).alertShown = st.alertShown := by
  unfold applyTransitBlock
  cases hst : st.transit
  · simp
  · by_cases hc : panel.todChecked <;> simp [hc]

/-- The bus block is a no-op when no bus renderer is registered. -/
theorem applyBusBlock_skip (panel : PanelState) (st : AppState)
    (bc : Except String Unit) (h : st.bus = none) :
    applyBusBlock panel st bc = (st, none) := by
  unfold applyBusBlock
  rw [h]

/-- C3 (amended): when the evaluation request fails, apply catches the
failure, raises the alert dialog and hides the loading overlay, and the
previously applied parcels and summary totals are untouched; however the
buffer overlays and feature visibility were already updated for the new
configuration before the request was sent, exactly as they are on a
successful run, so the map state is partially mutated.  The hypotheses
put no park and no bus renderer on the page, which keeps the renderer
blocks from throwing (see the C4 analysis). -/
theorem apply_failure_preserves_applied_results (panel : PanelState)
    (st : AppState) (tc bc : Except String Unit) (e : String)
    (r : EvalResults) (hpark : st.park = none) (hbus : st.bus = none) :
    (applyModel panel st tc bc (Except.error e)).2 = none ∧
    (applyModel panel st tc bc (Except.error e)).1.parcels = st.parcels ∧
    (applyModel panel st tc bc (Except.error e)).1.panelTotals =
      st.panelTotals ∧
    (applyModel panel st tc bc (Except.error e)).1.alertShown = true ∧
    (applyModel panel st tc bc (Except.error e)).1.loading = false ∧
    (applyModel panel st tc bc (Except.error e)).1.transit =
      (applyModel panel st tc bc (Except.ok r)).1.transit := by
  obtain ⟨h1, h2, h3, h4, h5⟩ :=
    applyTransitBlock_projections panel { st with loading := true } tc
  unfold applyModel applyAfterTransit
  rw [show (applyTransitBlock panel { st with loading := true } tc).park =
        none from h1.trans hpark]
  rw [applyBusBlock_skip panel _ bc (h2.trans hbus)]
  simp [applyApiBlock, applyResolveHandler, h3, h4]

/-- C3 witness: a concrete failing request against a state holding an
applied result and a transit buffer. -/
theorem apply_failure_preserves_applied_results_witness :
    (applyModel panelStateA stC3 (Except.ok ()) (Except.ok ())
        (Except.error "HTTP 500")).2 = none ∧
    (applyModel panelStateA stC3 (Except.ok ()) (Except.ok ())
        (Except.error "HTTP 500")).1.parcels = stC3.parcels ∧
    (applyModel panelStateA stC3 (Except.ok ()) (Except.ok ())
        (Except.error "HTTP 500")).1.panelTotals = stC3.panelTotals ∧
    (applyModel panelStateA stC3 (Except.ok ()) (Except.ok ())
        (Except.error "HTTP 500")).1.alertShown = true ∧
    (applyModel panelStateA stC3 (Except.ok ()) (Except.ok ())
        (Except.error "HTTP 500")).1.loading = false ∧
    (applyModel panelStateA stC3 (Except.ok ()) (Except.ok ())
        (Except.error "HTTP 500")).1.transit =
      (applyModel panelStateA stC3 (Except.ok ()) (Except.ok ())
        (Except.ok resultA)).1.transit :=
  apply_failure_preserves_applied_results panelStateA stC3
    (Except.ok ()) (Except.ok ()) "HTTP 500" resultA rfl rfl

/-- C3 counterexample: on the same failing request the transit buffer
overlay does change hands, from 1500 feet to the new ring-3 slider value,
so the claim that no mutation of the buffer overlays occurs for a failed
request is false at this input. -/
theorem apply_failure_mutates_buffers_cex :
    (applyModel panelStateA stC3 (Except.ok ()) (Except.ok ())
        (Except.error "HTTP 500")).2 = none ∧
    (applyModel panelStateA stC3 (Except.ok ()) (Except.ok ())
        (Except.error "HTTP 500")).1.parcels = stC3.parcels ∧
    (applyModel panelStateA stC3 (Except.ok ()) (Except.ok ())
        (Except.error "HTTP 500")).1.transit ≠ stC3.transit := by decide

/-- C4: ParkRenderer defines neither hideParks nor clearBuffers, yet the
POD-disabled branch of apply calls both.  With POD unchecked and TOD
still on, apply throws a TypeError in the park block: the POD buffer
overlay stays registered on the map, the previously displayed combined
parcels (including the POD contribution) stay up, the evaluation never
runs, and the loading overlay is stuck. -/
theorem disable_pod_leaves_stale_overlay :
    parkRendererHas "hideParks" = false ∧
    parkRendererHas "clearBuffers" = false ∧
    (applyModel panelC4 stC4 (Except.ok ()) (Except.ok ())
        (Except.ok resultA)).2 =
      some "TypeError: window.parkRenderer.hideParks is not a function" ∧
    (applyModel panelC4 stC4 (Except.ok ()) (Except.ok ())
        (Except.ok resultA)).1.park = some parkStateC4 ∧
    (applyModel panelC4 stC4 (Except.ok ()) (Except.ok ())
        (Except.ok resultA)).1.parcels = stC4.parcels ∧
    (applyModel panelC4 stC4 (Except.ok ()) (Except.ok ())
        (Except.ok resultA)).1.loading = true := by decide

/-! ## Claim theorems for layer replacement and buffer failures -/

/-- C2 counterexample: starting from a map showing parcel layer 1 and
updating with a valid feature collection that becomes layer 2, the trace
of updateWithResults contains a step at which neither layer 1 nor layer
2 is on the map, so the replacement is not old-removed-only-after-new-
ready. -/
theorem update_removes_old_before_new_cex :
    ¬ (∀ s ∈ updateWithResultsTrace mu0 true 2,
        1 ∈ s.onMap ∨ 2 ∈ s.onMap) := by decide

/-- C2 (amended): updateWithResults removes the old parcel layer first
and only then builds and adds the new one: between the two steps the map
holds no parcel layer at all, and after completion the new layer alone
is on the map and registered as the parcel layer. -/
theorem update_replace_order (m : MU) (l newId : Nat)
    (h : m.parcelLayer = some l) (hm : m.onMap = [l]) :
    ((updateWithResultsTrace m true newId).getD 1 muDummy).onMap = [] ∧
    ((updateWithResultsTrace m true newId).getD 2 muDummy).onMap = [newId] ∧
    ((updateWithResultsTrace m true newId).getD 2 muDummy).parcelLayer =
      some newId := by
  obtain ⟨pl, om⟩ := m
  simp only at h hm
  subst h
  subst hm
  simp [updateWithResultsTrace, muRemoveOld, muAddNew]

/-- C2 witness: replacing layer 1 by layer 2. -/
theorem update_replace_order_witness :
    ((updateWithResultsTrace mu0 true 2).getD 1 muDummy).onMap = [] ∧
    ((updateWithResultsTrace mu0 true 2).getD 2 muDummy).onMap = [2] ∧
    ((updateWithResultsTrace mu0 true 2).getD 2 muDummy).parcelLayer =
      some 2 :=
  update_replace_order mu0 1 2 rfl rfl

/-- C9 counterexample: the canvas BusRenderer.loadBufferRings has no
try/catch, so a throwing buffer computation escapes to the caller,
refuting the claim that every renderer contains such exceptions inside
the rendering call. -/
theorem bus_buffer_error_propagates_cex :
    (busLoadBufferRings busStateB0 250
        (Except.error "buffer computation failed")).2 =
      some "buffer computation failed" := by decide

/-- C9 (amended): a throwing buffer computation is caught inside
TransitRenderer.loadBufferRings and ParkRenderer.updateBuffers, which
log it and leave the overlay omitted, and both calls return normally by
construction; the canvas BusRenderer.loadBufferRings does not catch it,
so with any stored stops the exception propagates to the caller. -/
theorem buffer_error_containment (t : TransitState) (p : ParkState)
    (b : BusState) (d rd cd : Int) (e : String) :
    (transitLoadBufferRings t d (Except.error e)).buffer = none ∧
    (parkUpdateBuffers p rd cd (Except.error e)).buffer = none ∧
    (0 < b.stopsCount →
      (busLoadBufferRings b d (Except.error e)).2 = some e) := by
  refine ⟨?_, ?_, fun h => ?_⟩
  · cases hb : t.buffer <;>
      simp [transitLoadBufferRings, transitClearBuffers, hb]
  · cases hb : p.buffer <;>
      cases hf : p.featuresCount <;>
        simp [parkUpdateBuffers, hb, hf]
  · cases hb : b.buffer <;>
      simp [busLoadBufferRings, busClearBuffers, hb, Nat.pos_iff_ne_zero.mp h]

/-- C9 witness: concrete renderer states and a concrete failing buffer
computation. -/
theorem buffer_error_containment_witness :
    (transitLoadBufferRings transitStateC3 250 (Except.error "boom")).buffer =
      none ∧
    (parkUpdateBuffers parkStateC4 750 250 (Except.error "boom")).buffer =
      none ∧
    (busLoadBufferRings busStateB0 250 (Except.error "boom")).2 =
      some "boom" :=
  ⟨(buffer_error_containment transitStateC3 parkStateC4 busStateB0
      250 750 250 "boom").1,
   (buffer_error_containment transitStateC3 parkStateC4 busStateB0
      250 750 250 "boom").2.1,
   (buffer_error_containment transitStateC3 parkStateC4 busStateB0
      250 750 250 "boom").2.2 (by decide)⟩
